import Mathlib

/-!
# Verification of the FlareSolverr challenge-resolution service

Shallow embedding of `src/flaresolverr_service.py`: the challenge detector,
the challenge-waiter loop, the dispatcher validations, the per-request
driver-cleanup logic, and the POST form builder, together with theorems
checking the natural-language specification against this embedding.
-/

namespace FlareSolverr

/-! ## Fixed heuristic tables (`flaresolverr_service.py`, lines 25-53) -/

def ACCESS_DENIED_TITLES : List String :=
  [ "Access denied",
    "Attention Required! | Cloudflare" ]

def ACCESS_DENIED_SELECTORS : List String :=
  [ "div.cf-error-title span.cf-code-label span",
    "#cf-error-details div.cf-error-overview h1" ]

def CHALLENGE_TITLES : List String :=
  [ "Just a moment...",
    "DDoS-Guard" ]

def CHALLENGE_SELECTORS : List String :=
  [ "#cf-challenge-running", ".ray_id", ".attack-box", "#cf-please-wait",
    "#challenge-spinner", "#trk_jschal_js", "#turnstile-wrapper", ".lds-ring",
    "td.info #js_info",
    "div.vc div.text-box h2" ]

def SHORT_TIMEOUT : Nat := 1

def LONG_TIMEOUT : Nat := 5

/-! ## Page snapshots

A loaded page is observed through `driver.title` and
`driver.find_elements(By.CSS_SELECTOR, sel)`; the latter is embedded as a
count of matching elements per selector string. -/

structure Page where
  title : String
  query : String → Nat

/-! ## Challenge detector (`_evil_logic`, lines 452-478)

The source raises a "Cloudflare has blocked this request" exception when an
access-denied title or selector matches (titles scanned first), otherwise
sets `challenge_found` from the challenge titles (case-insensitive, scanned
first) and, only when no title matched, from the challenge selectors. -/

def detectBlocked (p : Page) : Bool :=
  ACCESS_DENIED_TITLES.any (fun title => title == p.title) ||
    ACCESS_DENIED_SELECTORS.any (fun selector => 0 < p.query selector)

def detectChallenge (p : Page) : Bool :=
  CHALLENGE_TITLES.any (fun title => title.toLower == p.title.toLower) ||
    CHALLENGE_SELECTORS.any (fun selector => 0 < p.query selector)

inductive Classification where
  | BLOCKED
  | CHALLENGED
  | CLEAR
deriving DecidableEq, Repr

/-- The classification `_evil_logic` performs on the freshly loaded page:
the blocked scan runs first and raises (BLOCKED); otherwise the value of
`challenge_found` decides between CHALLENGED and CLEAR. -/
def classify (p : Page) : Classification :=
  if detectBlocked p then .BLOCKED
  else if detectChallenge p then .CHALLENGED
  else .CLEAR

/-- The blocked indicator, written out as a proposition. -/
def BlockedProp (p : Page) : Prop :=
  p.title ∈ ACCESS_DENIED_TITLES ∨
    ∃ selector ∈ ACCESS_DENIED_SELECTORS, 0 < p.query selector

/-- The challenge indicator, written out as a proposition: a challenge
title matches case-insensitively, or no challenge title matches and a
challenge selector matches at least one element. -/
def ChallengeProp (p : Page) : Prop :=
  (∃ title ∈ CHALLENGE_TITLES, title.toLower = p.title.toLower) ∨
    ((¬ ∃ title ∈ CHALLENGE_TITLES, title.toLower = p.title.toLower) ∧
      ∃ selector ∈ CHALLENGE_SELECTORS, 0 < p.query selector)

theorem detectBlocked_iff (p : Page) : detectBlocked p = true ↔ BlockedProp p := by
  unfold detectBlocked BlockedProp
  rw [Bool.or_eq_true_iff]
  constructor
  · rintro (ht | hs)
    · obtain ⟨t, hmem, heq⟩ := List.any_eq_true.mp ht
      exact Or.inl (beq_iff_eq.mp heq ▸ hmem)
    · exact Or.inr (by simpa [List.any_eq_true] using hs)
  · rintro (ht | hs)
    · exact Or.inl (List.any_eq_true.mpr ⟨p.title, ht, beq_self_eq_true _⟩)
    · exact Or.inr (by simpa [List.any_eq_true] using hs)

theorem detectChallenge_iff (p : Page) : detectChallenge p = true ↔ ChallengeProp p := by
  constructor
  · intro h
    rcases Bool.or_eq_true_iff.mp h with ht | hs
    · exact Or.inl (by simpa [List.any_eq_true] using ht)
    · by_cases htitle : ∃ title ∈ CHALLENGE_TITLES, title.toLower = p.title.toLower
      · exact Or.inl htitle
      · exact Or.inr ⟨htitle, by simpa [List.any_eq_true] using hs⟩
  · intro h
    rcases h with ht | ⟨_, hs⟩
    · exact Bool.or_eq_true_iff.mpr (Or.inl (by simpa [List.any_eq_true] using ht))
    · exact Bool.or_eq_true_iff.mpr (Or.inr (by simpa [List.any_eq_true] using hs))

/-- C1: the detector is total over `{BLOCKED, CHALLENGED, CLEAR}`: BLOCKED
exactly when the title equals an access-denied title or an access-denied
selector matches at least one element; otherwise CHALLENGED exactly when a
challenge title matches case-insensitively or (no challenge title matching)
a challenge selector matches at least one element; otherwise CLEAR.  In
particular BLOCKED takes precedence over CHALLENGED when indicators of both
are present. -/
theorem detector_classification (p : Page) :
    (classify p = .BLOCKED ↔ BlockedProp p) ∧
    (classify p = .CHALLENGED ↔ ¬ BlockedProp p ∧ ChallengeProp p) ∧
    (classify p = .CLEAR ↔ ¬ BlockedProp p ∧ ¬ ChallengeProp p) := by
  unfold classify
  by_cases hb : detectBlocked p <;> by_cases hc : detectChallenge p <;>
    simp_all [← detectBlocked_iff, ← detectChallenge_iff]

/-! ## Dispatcher validations (`_cmd_request_get` lines 147-156,
`_cmd_request_post` lines 166-173, `_controller_v1_handler` lines 116-144)

Each validation is embedded as the message of the exception it raises, or
`none` when no validation fires and the command proceeds to
`_resolve_challenge`. -/

def cmdRequestGetValidate (url postData : Option String) : Option String :=
  if url.isNone then
    some "Request parameter 'url' is mandatory in 'request.get' command."
  else if postData.isSome then
    some "Cannot use 'postBody' when sending a GET request."
  else
    none

def cmdRequestPostValidate (url postData : Option String) : Option String :=
  if postData.isNone then
    some "Request parameter 'postData' is mandatory in 'request.post' command."
  else
    none

/-- C2 (counterexample): a `request.post` command with no `url` and some
`postData` passes validation — `_cmd_request_post` never reads `url`, so a
missing url is not rejected as a validation error, contrary to the claim. -/
theorem request_post_missing_url_not_rejected :
    cmdRequestPostValidate none (some "a=1") = none := rfl

/-- C2 (amended): `request.get` rejects a missing `url` and rejects a
supplied `postData`; `request.post` rejects a missing `postData`; but
`request.post` performs no validation of `url` at all — its validation
passes exactly when `postData` is present, whatever `url` is. -/
theorem request_validation (url postData : Option String) :
    (cmdRequestGetValidate none postData).isSome = true ∧
    (∀ u p : String, (cmdRequestGetValidate (some u) (some p)).isSome = true) ∧
    (cmdRequestPostValidate url none).isSome = true ∧
    (cmdRequestPostValidate url postData = none ↔ postData.isSome = true) := by
  refine ⟨?_, ?_, ?_, ?_⟩
  · simp [cmdRequestGetValidate]
  · intro u p
    simp [cmdRequestGetValidate]
  · simp [cmdRequestPostValidate]
  · cases postData <;> simp [cmdRequestPostValidate]

/-- `_controller_v1_handler` default (lines 125-127): the value of
`req.maxTimeout` after the handler's default-setting step — replaced by
60000 when absent or below 1, kept otherwise. -/
def defaultedMaxTimeout (maxTimeout : Option Int) : Int :=
  match maxTimeout with
  | none => 60000
  | some v => if v < 1 then 60000 else v

/-- C8: when `maxTimeout` is absent or its integer value is below 1 the
handler sets it to 60000 ms; otherwise the supplied value is kept. -/
theorem maxTimeout_default (v : Int) :
    defaultedMaxTimeout none = 60000 ∧
    (v < 1 → defaultedMaxTimeout (some v) = 60000) ∧
    (1 ≤ v → defaultedMaxTimeout (some v) = v) := by
  refine ⟨rfl, ?_, ?_⟩
  · intro h
    simp [defaultedMaxTimeout, h]
  · intro h
    simp [defaultedMaxTimeout, not_lt.mpr h]

theorem maxTimeout_default_witness :
    defaultedMaxTimeout none = 60000 ∧
    defaultedMaxTimeout (some 0) = 60000 ∧
    defaultedMaxTimeout (some 5000) = 5000 :=
  ⟨(maxTimeout_default 0).1, (maxTimeout_default 0).2.1 (by decide),
    (maxTimeout_default 5000).2.2 (by decide)⟩

/-! ## Response assembly and error boundary -/

/-- Modelled from the spec: the `STATUS_OK` constant of the `dtos` module
(not under `src/`); §6 gives the response `status` enum as `ok`|`error`. -/
def STATUS_OK : String := "ok"

/-- Modelled from the spec: the `STATUS_ERROR` constant of the `dtos`
module (not under `src/`); §6 gives the response `status` enum as
`ok`|`error`. -/
def STATUS_ERROR : String := "error"

structure V1Response where
  status : Option String := none
  message : Option String := none
  startTimestamp : Option Int := none
  endTimestamp : Option Int := none
  version : Option String := none
deriving Repr, DecidableEq

/-- `controller_v1_endpoint` (lines 95-113): the handler either returns a
response or raises, which the `except` block turns into an error-status
response with message `"Error: " ++ str(e)`; the timestamps and version are
stamped onto the response on every path before it is returned. -/
def controller_v1_endpoint (handler : Except String V1Response)
    (startTs endTs : Int) (version : String) : V1Response :=
  let res : V1Response :=
    match handler with
    | .ok r => r
    | .error e => { status := some STATUS_ERROR, message := some ("Error: " ++ e) }
  { res with startTimestamp := some startTs, endTimestamp := some endTs,
             version := some version }

/-- C6: every failure raised while handling a command is converted at the
dispatcher boundary into a response with status `error` and a message
describing the failure, no exception escapes (the endpoint is a total
function of the handler outcome), and every response carries the start/end
timestamps and the version. -/
theorem endpoint_error_boundary (handler : Except String V1Response)
    (startTs endTs : Int) (ver : String) :
    (controller_v1_endpoint handler startTs endTs ver).startTimestamp = some startTs ∧
    (controller_v1_endpoint handler startTs endTs ver).endTimestamp = some endTs ∧
    (controller_v1_endpoint handler startTs endTs ver).version = some ver ∧
    (∀ e, handler = .error e →
      (controller_v1_endpoint handler startTs endTs ver).status = some STATUS_ERROR ∧
      (controller_v1_endpoint handler startTs endTs ver).message
        = some ("Error: " ++ e)) := by
  refine ⟨rfl, rfl, rfl, ?_⟩
  intro e he
  subst he
  exact ⟨rfl, rfl⟩

theorem endpoint_error_boundary_witness :
    (controller_v1_endpoint (.error "boom") 1 2 "v3").status = some STATUS_ERROR ∧
    (controller_v1_endpoint (.error "boom") 1 2 "v3").message
      = some ("Error: " ++ "boom") :=
  (endpoint_error_boundary (.error "boom") 1 2 "v3").2.2.2 "boom" rfl

/-! ## Resolution extraction (`_evil_logic`, lines 531-541) -/

structure ChallengeResolutionResult where
  url : Option String := none
  status : Option Nat := none
  cookies : Option (List (String × String)) := none
  userAgent : Option String := none
  headers : Option (List (String × String)) := none
  response : Option String := none
deriving Repr, DecidableEq

/-- Python truthiness of an optional boolean field: absent is falsy. -/
def truthy : Option Bool → Bool
  | none => false
  | some b => b

/-- Result assembly at the end of `_evil_logic`: url, status 200, cookies
and user agent are always set; `headers` (empty map) and `response` (page
source) only when `req.returnOnlyCookies` is falsy. -/
def buildChallengeResult (returnOnlyCookies : Option Bool) (currentUrl : String)
    (cookies : List (String × String)) (userAgent pageSource : String) :
    ChallengeResolutionResult :=
  let base : ChallengeResolutionResult :=
    { url := some currentUrl, status := some 200, cookies := some cookies,
      userAgent := some userAgent }
  if truthy returnOnlyCookies then base
  else { base with headers := some [], response := some pageSource }

/-- C7: with `returnOnlyCookies` true the result contains neither the
response body nor any headers map (in particular no non-empty one); with it
unset or false the result contains the page source as body together with
the (empty) headers map. -/
theorem returnOnlyCookies_round_trip (roc : Option Bool) (u : String)
    (cs : List (String × String)) (ua ps : String) :
    (truthy roc = true →
      (buildChallengeResult roc u cs ua ps).response = none ∧
      (buildChallengeResult roc u cs ua ps).headers = none) ∧
    (truthy roc = false →
      (buildChallengeResult roc u cs ua ps).response = some ps ∧
      (buildChallengeResult roc u cs ua ps).headers = some []) := by
  constructor
  · intro h
    simp [buildChallengeResult, h]
  · intro h
    simp [buildChallengeResult, h]

theorem returnOnlyCookies_round_trip_witness :
    ((buildChallengeResult (some true) "u" [] "ua" "body").response = none ∧
      (buildChallengeResult (some true) "u" [] "ua" "body").headers = none) ∧
    ((buildChallengeResult none "u" [] "ua" "body").response = some "body" ∧
      (buildChallengeResult none "u" [] "ua" "body").headers = some []) :=
  ⟨(returnOnlyCookies_round_trip (some true) "u" [] "ua" "body").1 rfl,
    (returnOnlyCookies_round_trip none "u" [] "ua" "body").2 rfl⟩

/-! ## Driver lifetime in `_resolve_challenge` (lines 241-271) -/

inductive BodyOutcome where
  | succeeded
  | timedOut
  | raised (msg : String)
deriving Repr, DecidableEq

inductive DriverAction where
  | close
  | quit
deriving Repr, DecidableEq

/-- Python truthiness of `req.session` (lines 245 and 267): absent or the
empty string is falsy. -/
def sessionTruthy : Option String → Bool
  | none => false
  | some s => !s.isEmpty

/-- `_resolve_challenge`: acquire a driver (session's driver when
`req.session` is truthy, else a fresh webdriver — `acquireOk` is whether
acquisition succeeded, leaving `driver` non-None), run `_evil_logic` under
`func_timeout` with the given outcome, and run the `finally` block, which
closes (on platform "nt") and quits the driver exactly when `req.session`
is falsy and `driver` is not None.  Returns the propagated outcome and the
list of driver actions the `finally` block performed. -/
def resolveChallengeCleanup (session : Option String) (platformNT acquireOk : Bool)
    (outcome : BodyOutcome) (timeoutSecs : Int) :
    Except String Unit × List DriverAction :=
  let result : Except String Unit :=
    if acquireOk then
      match outcome with
      | .succeeded => .ok ()
      | .timedOut =>
          .error ("Error solving the challenge. Timeout after " ++
            toString timeoutSecs ++ " seconds.")
      | .raised msg =>
          .error ("Error solving the challenge. " ++ msg.replace "\n" "\\n")
    else
      .error "Error solving the challenge. "
  let cleanup : List DriverAction :=
    if !sessionTruthy session && acquireOk then
      if platformNT then [.close, .quit] else [.quit]
    else []
  (result, cleanup)

/-- C5: when the request supplies no session id, the driver created for the
request is quit on every exit path — success, timeout, or any raised error
— and when a (non-empty) session id is supplied, the resolution call
performs no driver cleanup at all, in particular it never quits the
session's driver. -/
theorem resolve_driver_cleanup (session : Option String) (nt acq : Bool)
    (out : BodyOutcome) (t : Int) :
    (session = none → acq = true →
      DriverAction.quit ∈ (resolveChallengeCleanup session nt acq out t).2) ∧
    (∀ s : String, session = some s → s ≠ "" →
      (resolveChallengeCleanup session nt acq out t).2 = []) := by
  constructor
  · intro hs ha
    subst hs
    subst ha
    cases nt <;> simp [resolveChallengeCleanup, sessionTruthy]
  · intro s hs hne
    subst hs
    have : s.isEmpty = false := by
      cases h : s.isEmpty
      · rfl
      · exact absurd ((String.isEmpty_iff s).mp h) hne
    simp [resolveChallengeCleanup, sessionTruthy, this]

theorem resolve_driver_cleanup_witness :
    DriverAction.quit ∈ (resolveChallengeCleanup none false true .succeeded 60).2 ∧
    (resolveChallengeCleanup (some "s1") false true .timedOut 60).2 = [] :=
  ⟨(resolve_driver_cleanup none false true .succeeded 60).1 rfl rfl,
    (resolve_driver_cleanup (some "s1") false true .timedOut 60).2 "s1" rfl
      (by decide)⟩

/-! ## Tab management: `get_correct_window` (lines 390-401) -/

/-- A browser's tab state: the open windows as (handle, url) pairs in
opening order, plus the handle of the focused window.  The focused handle
may refer to a window that has since been closed — selenium then raises on
any `current_url` read. -/
structure Browser where
  windows : List (Nat × String)
  focused : Nat
deriving Repr, DecidableEq

/-- Python `str.startswith(pre)`, as a character-list prefix test. -/
def strStartsWith (s pre : String) : Bool :=
  pre.data.isPrefixOf s.data

/-- `driver.window_handles`: the open handles in opening order. -/
def Browser.window_handles (b : Browser) : List Nat :=
  b.windows.map (fun w => w.1)

/-- `driver.current_url`: the URL of the focused window; `none` models the
NoSuchWindowException raised when the focused window has been closed. -/
def Browser.current_url (b : Browser) : Option String :=
  (b.windows.find? (fun w => w.1 == b.focused)).map (fun w => w.2)

/-- `driver.switch_to.window(h)`: fails when `h` is not an open handle. -/
def Browser.switchToWindow (b : Browser) (h : Nat) : Option Browser :=
  if b.window_handles.contains h then some { b with focused := h } else none

/-- `driver.close()`: closes the focused window (the focused handle is left
dangling, as in selenium). -/
def Browser.closeWindow (b : Browser) : Browser :=
  { b with windows := b.windows.filter (fun w => !(w.1 == b.focused)) }

/-- The `for window_handle in reversed(driver.window_handles)` loop of
`get_correct_window`, threading the browser state and `window_to_keep`.
Each iteration reads `driver.current_url` — the URL of the *focused*
window, not of `window_handle`. -/
def getCorrectWindowLoop (url : String) (closeOtherTabs : Bool) :
    List Nat → Browser → Option Nat → Option (Browser × Option Nat)
  | [], b, keep => some (b, keep)
  | h :: rest, b, keep => do
      let currentUrl ← b.current_url
      if strStartsWith currentUrl url && keep.isNone then
        getCorrectWindowLoop url closeOtherTabs rest b (some h)
      else if closeOtherTabs then
        let b' ← b.switchToWindow h
        getCorrectWindowLoop url closeOtherTabs rest b'.closeWindow keep
      else
        getCorrectWindowLoop url closeOtherTabs rest b keep

/-- `get_correct_window` (lines 390-401): when more than one window is
open, scan the handle list newest-first, remember the first handle seen
while the focused window's URL starts with `url`, close the others (when
`close_other_tabs`), and finally switch to the remembered handle.  `none`
models a raised WebDriver exception (a `current_url` read from a closed
focused window, or `switch_to.window(None)` when nothing was kept). -/
def get_correct_window (b : Browser) (url : String) (closeOtherTabs : Bool) :
    Option Browser :=
  if 1 < b.window_handles.length then do
    let (b', keep) ← getCorrectWindowLoop url closeOtherTabs
      b.window_handles.reverse b none
    let h ← keep
    b'.switchToWindow h
  else some b

/-- C3 (code bug): with tabs 1 ↦ "http://t/x" (the only tab whose URL
starts with the target prefix "http://t") and 2 ↦ "http://other", focus on
tab 1, `get_correct_window` closes tab 1 and ends switched to tab 2, whose
URL does not start with the prefix — because each loop iteration reads the
focused window's `current_url` instead of the URL of the handle under
iteration, so the newest tab is kept whenever the focused tab's URL
matches. -/
theorem get_correct_window_keeps_wrong_tab :
    get_correct_window ⟨[(1, "http://t/x"), (2, "http://other")], 1⟩ "http://t" true
      = some ⟨[(2, "http://other")], 2⟩ ∧
    (Browser.current_url ⟨[(2, "http://other")], 2⟩).map
        (fun u => strStartsWith u "http://t") = some false := by
  constructor <;> decide

/-! ## POST form construction: `_post_request` (lines 545-575)

`unquote`, `quote` and `escape` come from the Python standard library
(external collaborators of this module); they are passed in as opaque
string functions `decode`, `quoteFn`, `escapeFn`. -/

/-- Python `str.split(sep)` for a single-character separator, over a
character list: splitting an empty text yields one empty group. -/
def splitCharList (sep : Char) : List Char → List (List Char)
  | [] => [[]]
  | c :: cs =>
      let r := splitCharList sep cs
      if c = sep then [] :: r
      else
        match r with
        | g :: gs => (c :: g) :: gs
        | [] => [[c]]

/-- Python `str.split(sep)` for a single-character separator. -/
def splitOnChar (sep : Char) (s : String) : List String :=
  (splitCharList sep s.data).map String.mk

/-- The query string of `_post_request`: `req.postData` with a leading '?'
stripped; reading `postData[0]` raises IndexError on an empty string. -/
def postQueryString (postData : String) : Except Unit String :=
  match postData.data with
  | [] => .error ()
  | c :: rest => if c = '?' then .ok (String.mk rest) else .ok postData

/-- `name = unquote(parts[0])` for a pair: the URL-decoded text before the
first '='. -/
def pairName (decode : String → String) (p : String) : String :=
  decode ((splitOnChar '=' p).headD "")

/-- The `for pair in pairs` loop of `_post_request`: each pair is split on
'='; a pair whose decoded name equals 'submit' is skipped before its value
is read; otherwise an input with the escaped-quoted name and decoded value
is appended; a non-submit pair with no '=' raises IndexError (`parts[1]`),
which escapes the loop. -/
def buildFormInputs (decode quoteFn escapeFn : String → String) :
    List String → Except Unit (List (String × String))
  | [] => .ok []
  | p :: rest =>
      if pairName decode p = "submit" then
        buildFormInputs decode quoteFn escapeFn rest
      else
        match (splitOnChar '=' p).drop 1 with
        | v :: _ =>
            (buildFormInputs decode quoteFn escapeFn rest).map
              (fun l => (escapeFn (quoteFn (pairName decode p)),
                escapeFn (quoteFn (decode v))) :: l)
        | [] => .error ()

/-- The inputs of the synthetic auto-submitting form `_post_request` builds
from `req.postData`. -/
def postFormInputs (decode quoteFn escapeFn : String → String)
    (postData : String) : Except Unit (List (String × String)) :=
  (postQueryString postData).bind
    (fun qs => buildFormInputs decode quoteFn escapeFn (splitOnChar '&' qs))

theorem buildFormInputs_filter_submit (decode quoteFn escapeFn : String → String)
    (pairs : List String) :
    buildFormInputs decode quoteFn escapeFn pairs =
      buildFormInputs decode quoteFn escapeFn
        (pairs.filter (fun p => !(pairName decode p == "submit"))) := by
  induction pairs with
  | nil => rfl
  | cons p rest ih =>
    rw [List.filter_cons]
    by_cases hname : pairName decode p = "submit"
    · rw [if_neg (by simp [hname]), buildFormInputs, if_pos hname]
      exact ih
    · rw [if_pos (by simp [hname]), buildFormInputs, buildFormInputs,
        if_neg hname, if_neg hname, ih]

/-- C10: every '&'-separated pair of `postData` whose URL-decoded name
equals 'submit' is omitted from the synthetic form — the inputs built from
the pairs equal the inputs built after removing every submit-named pair,
so that parameter is never sent to the target URL. -/
theorem post_submit_pairs_omitted (decode quoteFn escapeFn : String → String)
    (postData qs : String) (h : postQueryString postData = .ok qs) :
    postFormInputs decode quoteFn escapeFn postData =
      buildFormInputs decode quoteFn escapeFn
        ((splitOnChar '&' qs).filter
          (fun p => !(pairName decode p == "submit"))) := by
  rw [postFormInputs, h, Except.bind]
  exact buildFormInputs_filter_submit decode quoteFn escapeFn (splitOnChar '&' qs)

theorem post_submit_pairs_omitted_witness :
    postFormInputs id id id "a=1&submit=Go&b=2" = .ok [("a", "1"), ("b", "2")] ∧
    postFormInputs id id id "a=1&submit=Go&b=2" =
      buildFormInputs id id id
        ((splitOnChar '&' "a=1&submit=Go&b=2").filter
          (fun p => !(pairName id p == "submit"))) :=
  ⟨by rfl,
    post_submit_pairs_omitted id id id "a=1&submit=Go&b=2" "a=1&submit=Go&b=2" rfl⟩

/-! ## Challenge waiter loop (`_evil_logic`, lines 480-515)

Browser-driver waits are embedded over a time-indexed sequence of page
snapshots: `w t` is the page as a poll at instant `t` would observe it.
One poll takes one instant, so a `WebDriverWait` bound of `LONG_TIMEOUT`
seconds becomes a budget of `LONG_TIMEOUT` polls. -/

abbrev World := Nat → Page

/-- `WebDriverWait(driver, fuel).until_not(cond)`: poll `cond` once per
instant; the first falsy check succeeds, returning its instant and the
instant after it; exhausting the budget raises TimeoutException (`none`),
returning the instant reached. -/
def untilNot (w : World) (cond : Page → Bool) : Nat → Nat → Option Nat × Nat
  | t, 0 => (none, t)
  | t, fuel + 1 =>
      if cond (w t) then untilNot w cond (t + 1) fuel
      else (some t, t + 1)

/-- A `for` loop of `until_not` waits, each with the `LONG_TIMEOUT` bound,
threading time; the first timeout aborts the whole sequence (the
TimeoutException propagates out of the `for` loop), reported with the
instant reached; success reports the exit-check instant of every wait and
the instant reached. -/
def runWaits (w : World) : List (Page → Bool) → Nat → Except Nat (List Nat × Nat)
  | [], t => .ok ([], t)
  | cond :: conds, t =>
      match untilNot w cond t LONG_TIMEOUT with
      | (none, t') => .error t'
      | (some ct, t') =>
          match runWaits w conds t' with
          | .error t'' => .error t''
          | .ok (cts, t'') => .ok (ct :: cts, t'')

/-- `title_is(title)` (the `until_not` condition of the title loop, line
495): selenium compares `driver.title == title` exactly. -/
def titleConds : List (Page → Bool) :=
  CHALLENGE_TITLES.map (fun title => fun p => p.title == title)

/-- `presence_of_element_located((By.CSS_SELECTOR, selector))` (the
`until_not` condition of the selector loop, lines 500-501): truthy exactly
when at least one element matches the selector. -/
def selectorConds : List (Page → Bool) :=
  CHALLENGE_SELECTORS.map (fun selector => fun p => 0 < p.query selector)

theorem untilNot_sound (w : World) (cond : Page → Bool) (fuel : Nat) :
    ∀ t ct t', untilNot w cond t fuel = (some ct, t') → cond (w ct) = false := by
  induction fuel with
  | zero =>
    intro t ct t' h
    simp [untilNot] at h
  | succ n ih =>
    intro t ct t' h
    rw [untilNot] at h
    by_cases hc : cond (w t) = true
    · rw [if_pos hc] at h
      exact ih (t + 1) ct t' h
    · rw [if_neg hc] at h
      obtain ⟨h1, _⟩ := Prod.mk.injEq .. ▸ h
      cases Option.some.inj h1
      exact Bool.not_eq_true _ ▸ eq_false_of_ne_true hc

theorem runWaits_sound (w : World) (conds : List (Page → Bool)) :
    ∀ t cts t', runWaits w conds t = .ok (cts, t') →
      cts.length = conds.length ∧
      ∀ (i : Nat) (h1 : i < conds.length) (h2 : i < cts.length),
        conds.get ⟨i, h1⟩ (w (cts.get ⟨i, h2⟩)) = false := by
  induction conds with
  | nil =>
    intro t cts t' h
    rw [runWaits] at h
    obtain ⟨rfl, rfl⟩ : ([] : List Nat) = cts ∧ t = t' := by
      simpa using h
    refine ⟨rfl, ?_⟩
    intro i h1 _
    exact absurd h1 (Nat.not_lt_zero i)
  | cons c cs ih =>
    intro t cts t' h
    rw [runWaits] at h
    split at h
    · simp at h
    · rename_i ct tu hu
      split at h
      · simp at h
      · rename_i cts' t'' hr
        obtain ⟨rfl, rfl⟩ : ct :: cts' = cts ∧ t'' = t' := by
          simpa using h
        obtain ⟨hlen, hrest⟩ := ih tu cts' t'' hr
        refine ⟨by simp [hlen], ?_⟩
        intro i h1 h2
        cases i with
        | zero =>
            simpa using untilNot_sound w c LONG_TIMEOUT t ct tu hu
        | succ j =>
            simpa using hrest j (by simpa using h1) (by simpa using h2)

/-- The outcome of one iteration of the `while True` loop: a
TimeoutException in the title waits (with the instant it was raised), one
in the selector waits (keeping the title exit-check instants already
obtained), or both wait sequences completed — the loop breaks, cleared. -/
inductive AttemptOutcome where
  | titleTimeout (t : Nat)
  | selectorTimeout (titleTimes : List Nat) (t : Nat)
  | cleared (titleTimes selectorTimes : List Nat)
deriving Repr, DecidableEq

/-- The trace of one loop iteration: its attempt number, whether the
every-3rd-attempt branch ran (`switch_to_new_tab`, which re-applies
`_init_driver` and pauses, lines 410-417 and 486-489), and how the two
wait sequences ended. -/
structure AttemptRecord where
  attempt : Nat
  openedNewTab : Bool
  outcome : AttemptOutcome
deriving Repr, DecidableEq

/-- The `while True` loop of `_evil_logic` (lines 482-515) as the trace of
its iterations.  `fuel` bounds the number of iterations (the real loop is
unbounded, cut off only by the caller's `func_timeout` hard deadline);
`attempt` is the counter (0 before the first iteration) and `t` the
current instant.  Each iteration increments the counter, re-acquires the
window (`get_correct_window`, not time-modelled), runs the new-tab branch
when the attempt number is a multiple of 3 (costing `newTabCost`
instants), then the title waits and the selector waits; a TimeoutException
runs `click_verify_with_actions` (costing `recoveryCost` instants) and
loops; completing both wait sequences breaks out. -/
def waiterLoop (w : World) (newTabCost recoveryCost : Nat) :
    Nat → Nat → Nat → List AttemptRecord
  | 0, _, _ => []
  | fuel + 1, attempt, t =>
      let a := attempt + 1
      let tabOpened := a % 3 == 0
      let t1 := if tabOpened then t + newTabCost else t
      match runWaits w titleConds t1 with
      | .error t2 =>
          ⟨a, tabOpened, .titleTimeout t2⟩ ::
            waiterLoop w newTabCost recoveryCost fuel a (t2 + recoveryCost)
      | .ok (titleTimes, t2) =>
          match runWaits w selectorConds t2 with
          | .error t3 =>
              ⟨a, tabOpened, .selectorTimeout titleTimes t3⟩ ::
                waiterLoop w newTabCost recoveryCost fuel a (t3 + recoveryCost)
          | .ok (selectorTimes, _) =>
              [⟨a, tabOpened, .cleared titleTimes selectorTimes⟩]

theorem waiterLoop_cleared_runWaits (w : World) (nc rc : Nat) (fuel : Nat) :
    ∀ a t (r : AttemptRecord) (tts sts : List Nat),
      r ∈ waiterLoop w nc rc fuel a t → r.outcome = .cleared tts sts →
      ∃ t1 t2 t3, runWaits w titleConds t1 = .ok (tts, t2) ∧
        runWaits w selectorConds t2 = .ok (sts, t3) := by
  induction fuel with
  | zero =>
    intro a t r tts sts hmem _
    simp [waiterLoop] at hmem
  | succ n ih =>
    intro a t r tts sts hmem hout
    rw [waiterLoop] at hmem
    split at hmem
    · rename_i t2 hT
      rcases List.mem_cons.mp hmem with rfl | hmem'
      · simp [AttemptRecord.outcome] at hout
      · exact ih (a + 1) (t2 + rc) r tts sts hmem' hout
    · rename_i titleTimes t2 hT
      split at hmem
      · rename_i t3 hS
        rcases List.mem_cons.mp hmem with rfl | hmem'
        · simp [AttemptRecord.outcome] at hout
        · exact ih (a + 1) (t3 + rc) r tts sts hmem' hout
      · rename_i selectorTimes t3 hS
        rcases List.mem_singleton.mp hmem with rfl
        obtain ⟨rfl, rfl⟩ : titleTimes = tts ∧ selectorTimes = sts := by
          simpa [AttemptRecord.outcome, AttemptOutcome.cleared.injEq] using hout
        exact ⟨_, t2, t3, hT, hS⟩

/-- C4: the waiter loop exits cleared only when, within a single attempt
(one `AttemptRecord`), the wait for every challenge title and the wait for
every challenge selector all succeeded without a timeout — the recorded
exit-check instants cover the full title and selector lists — and at each
such exit check the corresponding indicator did not match: the title
differs from the challenge title, and the selector matches zero
elements. -/
theorem waiter_cleared_exit_checks (w : World) (nc rc fuel a0 t0 : Nat)
    (r : AttemptRecord) (tts sts : List Nat)
    (hmem : r ∈ waiterLoop w nc rc fuel a0 t0)
    (hout : r.outcome = .cleared tts sts) :
    tts.length = CHALLENGE_TITLES.length ∧
    sts.length = CHALLENGE_SELECTORS.length ∧
    (∀ (i : Nat) (h1 : i < CHALLENGE_TITLES.length) (h2 : i < tts.length),
      (w (tts.get ⟨i, h2⟩)).title ≠ CHALLENGE_TITLES.get ⟨i, h1⟩) ∧
    (∀ (j : Nat) (h1 : j < CHALLENGE_SELECTORS.length) (h2 : j < sts.length),
      (w (sts.get ⟨j, h2⟩)).query (CHALLENGE_SELECTORS.get ⟨j, h1⟩) = 0) := by
  obtain ⟨t1, t2, t3, hT, hS⟩ :=
    waiterLoop_cleared_runWaits w nc rc fuel a0 t0 r tts sts hmem hout
  obtain ⟨hTlen, hTcond⟩ := runWaits_sound w titleConds t1 tts t2 hT
  obtain ⟨hSlen, hScond⟩ := runWaits_sound w selectorConds t2 sts t3 hS
  have hTL : titleConds.length = CHALLENGE_TITLES.length := List.length_map ..
  have hSL : selectorConds.length = CHALLENGE_SELECTORS.length := List.length_map ..
  refine ⟨hTlen.trans hTL, hSlen.trans hSL, ?_, ?_⟩
  · intro i h1 h2
    have h1' : i < titleConds.length := hTL ▸ h1
    have hcond := hTcond i h1' h2
    have hget : titleConds.get ⟨i, h1'⟩
        = fun (p : Page) => p.title == CHALLENGE_TITLES.get ⟨i, h1⟩ := by
      simp [titleConds, List.get_eq_getElem, List.getElem_map]
    rw [hget] at hcond
    exact beq_eq_false_iff_ne.mp hcond
  · intro j h1 h2
    have h1' : j < selectorConds.length := hSL ▸ h1
    have hcond := hScond j h1' h2
    have hget : selectorConds.get ⟨j, h1'⟩
        = fun (p : Page) => decide (0 < p.query (CHALLENGE_SELECTORS.get ⟨j, h1⟩)) := by
      simp [selectorConds, List.get_eq_getElem, List.getElem_map]
    rw [hget] at hcond
    exact Nat.eq_zero_of_not_pos (of_decide_eq_false hcond)

theorem waiterLoop_schedule_aux (w : World) (nc rc : Nat) (fuel : Nat) :
    ∀ a t,
      (waiterLoop w nc rc fuel a t).map (fun r => r.attempt)
          = List.range' (a + 1) (waiterLoop w nc rc fuel a t).length ∧
      ∀ r ∈ waiterLoop w nc rc fuel a t,
        r.openedNewTab = (r.attempt % 3 == 0) := by
  induction fuel with
  | zero =>
    intro a t
    simp [waiterLoop]
  | succ n ih =>
    intro a t
    rw [waiterLoop]
    split
    · rename_i t2 hT
      obtain ⟨ih1, ih2⟩ := ih (a + 1) (t2 + rc)
      refine ⟨?_, ?_⟩
      · rw [List.map_cons, ih1, List.length_cons, List.range'_succ]
      · intro r hr
        rcases List.mem_cons.mp hr with rfl | hr'
        · rfl
        · exact ih2 r hr'
    · rename_i titleTimes t2 hT
      split
      · rename_i t3 hS
        obtain ⟨ih1, ih2⟩ := ih (a + 1) (t3 + rc)
        refine ⟨?_, ?_⟩
        · rw [List.map_cons, ih1, List.length_cons, List.range'_succ]
        · intro r hr
          rcases List.mem_cons.mp hr with rfl | hr'
          · rfl
          · exact ih2 r hr'
      · rename_i selectorTimes t3 hS
        refine ⟨by simp [List.range'], ?_⟩
        intro r hr
        rcases List.mem_singleton.mp hr with rfl
        rfl

/-- C9: over a full run of the waiter loop, the attempt counter starts at 1
and increments by 1 on every iteration (the attempt numbers of the trace
are `1, 2, ..., k`), and the new-tab branch — `switch_to_new_tab`, which
re-applies the `_init_driver` hooks and pauses — runs exactly on the
iterations whose attempt number is a multiple of 3. -/
theorem waiter_attempt_schedule (w : World) (nc rc fuel t0 : Nat) :
    (waiterLoop w nc rc fuel 0 t0).map (fun r => r.attempt)
        = List.range' 1 (waiterLoop w nc rc fuel 0 t0).length ∧
    ∀ r ∈ waiterLoop w nc rc fuel 0 t0,
      r.openedNewTab = (r.attempt % 3 == 0) :=
  waiterLoop_schedule_aux w nc rc fuel 0 t0

/-- A world whose page never shows any challenge indicator: every wait
succeeds at its first poll. -/
def clearWorld : World := fun _ => { title := "all done", query := fun _ => 0 }

/-- A world stuck on the Cloudflare challenge page: every title wait for
"Just a moment..." times out. -/
def stuckWorld : World := fun _ => { title := "Just a moment...", query := fun _ => 1 }

theorem waiter_cleared_exit_checks_witness :
    ([0, 1] : List Nat).length = CHALLENGE_TITLES.length ∧
    ([2, 3, 4, 5, 6, 7, 8, 9, 10, 11] : List Nat).length
      = CHALLENGE_SELECTORS.length :=
  have h := waiter_cleared_exit_checks clearWorld 6 2 1 0 0
    ⟨1, false, .cleared [0, 1] [2, 3, 4, 5, 6, 7, 8, 9, 10, 11]⟩
    [0, 1] [2, 3, 4, 5, 6, 7, 8, 9, 10, 11] (by decide) rfl
  ⟨h.1, h.2.1⟩

theorem waiter_attempt_schedule_witness :
    (⟨3, true, .titleTimeout 25⟩ : AttemptRecord).openedNewTab
      = ((⟨3, true, .titleTimeout 25⟩ : AttemptRecord).attempt % 3 == 0) :=
  (waiter_attempt_schedule stuckWorld 6 2 4 0).2
    ⟨3, true, .titleTimeout 25⟩ (by decide)

end FlareSolverr
